import Mathlib

/-!
Verification of the Cross-Market Analysis dashboard (`app.py`) against its
natural-language specification.

The program is a read-only analytics dashboard over a SQLite database with
tables `crypto_prices (coin_id, date, price_usd)`, `oil_prices (date, price)`,
`stock_prices (ticker, date, open/high/low/close, volume)` and
`cryptocurrencies (id, name, symbol, ...)`.

Shallow embedding conventions:
  * A table is a list of rows, in storage order.
  * Calendar dates are `Nat` (the SQL `date(date)` truncation of the stored
    time-of-day is absorbed: rows carry the already-truncated calendar date;
    the data model guarantees dates are non-null and comparable).
  * Prices are `Option ℚ` (`none` = SQL NULL).  Pandas float arithmetic is
    modelled by exact rationals; every property proved or refuted here is
    insensitive to rounding (anchors of the form `v / v * 100`, nullness,
    counting, ordering of explicitly small integer inputs).
  * SQL choices that SQLite leaves unspecified (row order of `DISTINCT` /
    `GROUP BY` output, the representative row for a bare column under
    `GROUP BY`, order among `ORDER BY` ties) are resolved deterministically;
    no theorem below depends on the particular resolution beyond "some row".
-/

namespace CrossMarket

/-! ## Python string helpers (`.lower()`, `.upper()`, `.title()`)

The identifiers handled by the program (coin ids, symbols) are ASCII, where
`Char.toLower`/`Char.toUpper` agree with Python `str.lower`/`str.upper`. -/

def pyLower (s : String) : String := String.mk (s.data.map Char.toLower)

def pyUpper (s : String) : String := String.mk (s.data.map Char.toUpper)

/-- Python `str.title()`: a letter that follows a non-letter is uppercased,
every other letter is lowercased. -/
def titleAux : Bool → List Char → List Char
  | _, [] => []
  | prevAlpha, c :: rest =>
    if c.isAlpha then
      (if prevAlpha then c.toLower else c.toUpper) :: titleAux true rest
    else
      c :: titleAux false rest

def pyTitle (s : String) : String := String.mk (titleAux false s.data)

/-- SQL LIKE containment (`x LIKE %pat%`) on already-lowered text,
i.e. substring occurrence. -/
def hasSubstr (s pat : String) : Bool :=
  (List.range (s.data.length + 1)).any (fun i => pat.data.isPrefixOf (s.data.drop i))

/-! ## Data model -/

structure CryptoRow where
  coin_id : String
  date : Nat
  price_usd : Option ℚ
deriving DecidableEq

structure OilRow where
  date : Nat
  price : Option ℚ
deriving DecidableEq

/-- Only the columns the verified code paths read (`ticker`, `date`, `close`);
`open/high/low/volume` appear solely inside never-executed catalog SQL text. -/
structure StockRow where
  ticker : String
  date : Nat
  close : Option ℚ
deriving DecidableEq

structure CoinMeta where
  id : String
  name : String
  symbol : String
deriving DecidableEq

structure DB where
  crypto : List CryptoRow
  oil : List OilRow
  stock : List StockRow
  meta : List CoinMeta
deriving DecidableEq

/-! ## SQL-ordering helpers

SQLite treats NULL as smaller than every value, so `ORDER BY x DESC` puts
NULLs last. -/

def sqlNullLe : Option ℚ → Option ℚ → Prop
  | none, _ => True
  | some _, none => False
  | some x, some y => x ≤ y

instance : DecidableRel sqlNullLe := fun a b =>
  match a, b with
  | none, _ => isTrue trivial
  | some _, none => isFalse id
  | some x, some y => inferInstanceAs (Decidable (x ≤ y))

/-- `ORDER BY price DESC` on `(key, price)` pairs. -/
def priceDesc (x y : String × Option ℚ) : Prop := sqlNullLe y.2 x.2

instance : DecidableRel priceDesc := fun x y =>
  inferInstanceAs (Decidable (sqlNullLe y.2 x.2))

theorem sqlNullLe_total (a b : Option ℚ) : sqlNullLe a b ∨ sqlNullLe b a := by
  cases a <;> cases b <;> simp [sqlNullLe]
  exact le_total _ _

theorem sqlNullLe_trans {a b c : Option ℚ} :
    sqlNullLe a b → sqlNullLe b c → sqlNullLe a c := by
  cases a <;> cases b <;> cases c <;> simp [sqlNullLe]
  exact le_trans

theorem sqlNullLe_refl (a : Option ℚ) : sqlNullLe a a := by
  cases a <;> simp [sqlNullLe]

instance : IsTotal (String × Option ℚ) priceDesc :=
  ⟨fun x y => sqlNullLe_total y.2 x.2⟩

instance : IsTrans (String × Option ℚ) priceDesc :=
  ⟨fun _ _ _ h1 h2 => sqlNullLe_trans h2 h1⟩

def sortByPriceDesc (l : List (String × Option ℚ)) : List (String × Option ℚ) :=
  List.insertionSort priceDesc l

/-! ## Top-N selector (`get_top3`, app.py 612-639) -/

/-- Distinct `coin_id`s of `crypto_prices` (SQL `GROUP BY coin_id` /
`SELECT DISTINCT coin_id`; SQLite leaves the order unspecified). -/
def coinIds (crypto : List CryptoRow) : List String :=
  (crypto.map (·.coin_id)).dedup

def coinRows (crypto : List CryptoRow) (c : String) : List CryptoRow :=
  crypto.filter (fun r => r.coin_id == c)

/-- `SELECT MAX(date(date)) FROM crypto_prices AS cp2 WHERE cp2.coin_id = ...`:
`some` exactly when the coin has at least one row (dates are non-null). -/
def maxDateOf (crypto : List CryptoRow) (c : String) : Option Nat :=
  ((coinRows crypto c).map (·.date)).max?

/-- The rows of coin `c` whose date equals the max date of that coin (the rows that
survive the correlated `WHERE` of the latest-price query). -/
def latestRows (crypto : List CryptoRow) (c : String) : List CryptoRow :=
  match maxDateOf crypto c with
  | none => []
  | some m => (coinRows crypto c).filter (fun r => r.date == m)

/-- The bare `price_usd` column under `GROUP BY coin_id`: SQLite picks it from
an unspecified row of the group; we take the first group row in storage
order.  `none` when the coin has no row at all, or when that row has a NULL price. -/
def latestPrice (crypto : List CryptoRow) (c : String) : Option ℚ :=
  (latestRows crypto c).head?.bind (·.price_usd)

/-- Result set of the latest-price query before `ORDER BY`/`LIMIT`:
one row per distinct coin. -/
def latestTable (crypto : List CryptoRow) : List (String × Option ℚ) :=
  (coinIds crypto).map (fun c => (c, latestPrice crypto c))

/-- `AVG(price_usd)` for one coin: SQL AVG ignores NULLs and is NULL on an
empty or all-NULL group. -/
def avgPrice (crypto : List CryptoRow) (c : String) : Option ℚ :=
  let ps := (coinRows crypto c).filterMap (·.price_usd)
  if ps.isEmpty then none else some (ps.sum / (ps.length : ℚ))

/-- Result set of the all-time-average query before `ORDER BY`/`LIMIT`. -/
def avgTable (crypto : List CryptoRow) : List (String × Option ℚ) :=
  (coinIds crypto).map (fun c => (c, avgPrice crypto c))

/-- Latest-price query: `... GROUP BY coin_id ORDER BY price_usd DESC LIMIT 3`. -/
def latestTop3 (crypto : List CryptoRow) : List (String × Option ℚ) :=
  (sortByPriceDesc (latestTable crypto)).take 3

/-- Average-price ranking, all coins, best first
(`GROUP BY coin_id ORDER BY avg_p DESC`). -/
def avgRanking (crypto : List CryptoRow) : List (String × Option ℚ) :=
  sortByPriceDesc (avgTable crypto)

/-- Fallback query of `get_top3`: `... ORDER BY avg_p DESC LIMIT 3`. -/
def avgTop3 (crypto : List CryptoRow) : List (String × Option ℚ) :=
  (avgRanking crypto).take 3

/-- `get_top3` (app.py 612-635): latest-price top 3; when that result has
fewer than 3 rows, the all-time-average top 3 is used wholesale; the returned
value is the `coin_id` column as a list (empty frame gives `[]`). -/
def get_top3 (crypto : List CryptoRow) : List String :=
  let df := latestTop3 crypto
  let df := if df.length < 3 then avgTop3 crypto else df
  df.map Prod.fst

/-! ## Bitcoin selector (`get_bitcoin_coin_id`, app.py 104-118) -/

/-- `LOWER(coin_id) LIKE %bitcoin% OR LOWER(coin_id) LIKE %btc%` (the SQL
pattern quotes are dropped here). -/
def isBtcLike (c : String) : Bool :=
  hasSubstr (pyLower c) "bitcoin" || hasSubstr (pyLower c) "btc"

/-- `SELECT DISTINCT coin_id FROM crypto_prices WHERE ...` — the distinct ids
that match the LIKE filter (the predicate depends only on the value, so
distinct-then-filter equals filter-then-distinct). -/
def btcLikeMatches (crypto : List CryptoRow) : List String :=
  (coinIds crypto).filter isBtcLike

/-- `get_bitcoin_coin_id`: first LIKE-match (`LIMIT 1`); otherwise the head of
the all-time-average ranking (`ORDER BY avg_p DESC LIMIT 1`); `None` when
`crypto_prices` is empty. -/
def get_bitcoin_coin_id (crypto : List CryptoRow) : Option String :=
  match btcLikeMatches crypto with
  | c :: _ => some c
  | [] => (avgRanking crypto).head?.map Prod.fst

/-! ## Display names (`get_coin_display_names`, app.py 643-656) -/

/-- Rows returned by
`SELECT id, name, symbol FROM cryptocurrencies WHERE LOWER(id) IN (lowered coin_ids)`. -/
def metaFiltered (meta : List CoinMeta) (coin_ids : List String) : List CoinMeta :=
  meta.filter (fun m => (coin_ids.map pyLower).contains (pyLower m.id))

def mkLabel (m : CoinMeta) : String :=
  m.name ++ " (" ++ pyUpper m.symbol ++ ")"

/-- The `mapping` dict built by `get_coin_display_names`: keyed by the stored
`id` of the row (NOT by the queried coin id), value `"Name (SYMBOL)"`. -/
def get_coin_display_names (meta : List CoinMeta) (coin_ids : List String) :
    List (String × String) :=
  (metaFiltered meta coin_ids).map (fun m => (m.id, mkLabel m))

/-- Python dict lookup: on duplicate keys the last insertion wins. -/
def dictLookup (l : List (String × String)) (k : String) : Option String :=
  (l.reverse.find? (fun p => p.1 == k)).map Prod.snd

/-- `name_map.get(c, c.title())` (app.py 656). -/
def displayLabel (meta : List CoinMeta) (coin_ids : List String) (c : String) : String :=
  (dictLookup (get_coin_display_names meta coin_ids) c).getD (pyTitle c)

/-! ## Calendar alignment (overview query, app.py 181-213) -/

structure OverviewRow where
  date : Nat
  bitcoin : Option ℚ
  oil : Option ℚ
  sp500 : Option ℚ
  nifty : Option ℚ
deriving DecidableEq

def inRange (sd ed d : Nat) : Bool := sd ≤ d && d ≤ ed

/-- The `all_dates` CTE: distinct dates of the three tables restricted to
`BETWEEN :sd AND :ed` (closed interval), `UNION` deduplicated. -/
def all_dates (db : DB) (sd ed : Nat) : List Nat :=
  ((db.crypto.map (·.date)).filter (inRange sd ed) ++
   (db.oil.map (·.date)).filter (inRange sd ed) ++
   (db.stock.map (·.date)).filter (inRange sd ed)).dedup

/-- `price_usd` values of the crypto rows of the selected coin on date `d`
(the `cp` join input). -/
def cpMatches (db : DB) (btc : String) (d : Nat) : List (Option ℚ) :=
  (db.crypto.filter (fun r => r.coin_id == btc && r.date == d)).map (·.price_usd)

def oilMatches (db : DB) (d : Nat) : List (Option ℚ) :=
  (db.oil.filter (fun r => r.date == d)).map (·.price)

def stockMatches (db : DB) (tick : String) (d : Nat) : List (Option ℚ) :=
  (db.stock.filter (fun r => r.ticker == tick && r.date == d)).map (·.close)

/-- SQL LEFT JOIN semantics for one calendar date and one series: no matching
row contributes a single NULL, each matching row contributes its value. -/
def optJoin (l : List (Option ℚ)) : List (Option ℚ) :=
  match l with
  | [] => [none]
  | l => l

/-- All output rows of the overview query for one calendar date: the cross
product of the four per-series left-join contributions. -/
def rowBlock (d : Nat) (cs os ss ns : List (Option ℚ)) : List OverviewRow :=
  (optJoin cs).flatMap (fun b =>
    (optJoin os).flatMap (fun o =>
      (optJoin ss).flatMap (fun s =>
        (optJoin ns).map (fun n => ⟨d, b, o, s, n⟩))))

def dateDesc (a b : OverviewRow) : Prop := b.date ≤ a.date

instance : DecidableRel dateDesc := fun a b =>
  inferInstanceAs (Decidable (b.date ≤ a.date))

def dateAsc (a b : OverviewRow) : Prop := a.date ≤ b.date

instance : DecidableRel dateAsc := fun a b =>
  inferInstanceAs (Decidable (a.date ≤ b.date))

/-- Result set of the overview query (`ORDER BY d.date DESC`). -/
def overviewSQL (db : DB) (sd ed : Nat) (btc : String) : List OverviewRow :=
  List.insertionSort dateDesc
    ((all_dates db sd ed).flatMap (fun d =>
      rowBlock d (cpMatches db btc d) (oilMatches db d)
        (stockMatches db "^GSPC" d) (stockMatches db "^NSEI" d)))

def allNullRow (r : OverviewRow) : Bool :=
  r.bitcoin.isNone && r.oil.isNone && r.sp500.isNone && r.nifty.isNone

/-- `df = df[~(df[cols].isnull().all(axis=1))]` (app.py 216). -/
def filterAllNull (rows : List OverviewRow) : List OverviewRow :=
  rows.filter (fun r => !(allNullRow r))

/-! ## Normalization (app.py 278-285) -/

/-- `series.dropna().iloc[0]` as an `Option`: first non-null value. -/
def firstNonNull : List (Option ℚ) → Option ℚ
  | [] => none
  | none :: rest => firstNonNull rest
  | some v :: _ => some v

/-- Index of the first non-null entry. -/
def firstNonNullIdx : List (Option ℚ) → Option Nat
  | [] => none
  | some _ :: _ => some 0
  | none :: rest => (firstNonNullIdx rest).map (· + 1)

/-- One iteration of the normalization loop on one column:
`plot_df[c] = plot_df[c] / first.iloc[0] * 100` when the column has a
non-null value, the column untouched otherwise. -/
def normalizeCol (col : List (Option ℚ)) : List (Option ℚ) :=
  match firstNonNull col with
  | none => col
  | some f => col.map (Option.map (fun v => v / f * 100))

/-- `plot_df` before the loop: filtered frame sorted ascending by date
(`df.sort_values("date")`), series columns only. -/
def plotBase (db : DB) (sd ed : Nat) (btc : String) : List OverviewRow :=
  List.insertionSort dateAsc (filterAllNull (overviewSQL db sd ed btc))

/-- The four series columns the normalization loop ranges over. -/
def overviewPlotCols (db : DB) (sd ed : Nat) (btc : String) : List (List (Option ℚ)) :=
  [(plotBase db sd ed btc).map (·.bitcoin),
   (plotBase db sd ed btc).map (·.oil),
   (plotBase db sd ed btc).map (·.sp500),
   (plotBase db sd ed btc).map (·.nifty)]

/-! ## Page-level control flow -/

/-- Python truthiness of `btc_id` at app.py 174 (`if not btc_id`): `None` and
the empty string are both falsy. -/
def btcTruthy : Option String → Option String
  | none => none
  | some s => if s == "" then none else some s

inductive OverviewOutcome where
  | invalidRange
  | noBitcoin
  | noData
  | rendered (table : List OverviewRow)
deriving DecidableEq

/-- The Market Overview render (app.py 153-227): range validation, bitcoin
selection, overview query, all-null filter, then the empty check; `rendered`
carries the filtered frame the metrics/chart/table are computed from. -/
def overviewView (db : DB) (sd ed : Nat) : OverviewOutcome :=
  if ed < sd then .invalidRange
  else
    match btcTruthy (get_bitcoin_coin_id db.crypto) with
    | none => .noBitcoin
    | some btc =>
      let df := filterAllNull (overviewSQL db sd ed btc)
      if df.isEmpty then .noData else .rendered df

/-! ## Store-access traces (for the range-validation claim)

One constructor per distinct `run_query`/`read_sql_query` call site; a trace
lists the queries one fresh render issues, in program order (the
`st.cache_data` memo is empty at the start of the render). -/

inductive DataQuery where
  | minMaxDates (table : String)        -- get_db_date_range, one per table
  | coinIdLike                          -- get_bitcoin_coin_id, LIKE query
  | coinAvgTop1                         -- get_bitcoin_coin_id, fallback
  | debugCoinList                       -- app.py 177 expander
  | overviewJoin (sd ed : Nat)          -- the range-parameterized overview query
  | debugMinMax (table : String)        -- app.py 223-225 expander
  | debugTickers                        -- app.py 226
  | latestTop3Q                         -- get_top3, latest-price query
  | avgTop3Q                            -- get_top3, fallback query
  | metaNamesQ                          -- get_coin_display_names
  | coinPrices (sd ed : Nat)            -- app.py 675, range-parameterized
deriving DecidableEq

/-- The queries whose SQL is parameterized by the user-selected date range. -/
def isRangeParamQuery : DataQuery → Bool
  | .overviewJoin _ _ => true
  | .coinPrices _ _ => true
  | _ => false

def dbRangeQueries : List DataQuery :=
  [.minMaxDates "crypto_prices", .minMaxDates "oil_prices", .minMaxDates "stock_prices"]

/-- Store accesses of one Market Overview render: date-range discovery for the
widgets, validation (`st.stop` on `start_date > end_date`), bitcoin selection,
the overview join, and the debug queries of the no-data expander. -/
def page1Trace (db : DB) (sd ed : Nat) : List DataQuery :=
  dbRangeQueries ++
  (if ed < sd then []
   else
     [.coinIdLike] ++
     (if btcLikeMatches db.crypto = [] then [.coinAvgTop1] else []) ++
     (match btcTruthy (get_bitcoin_coin_id db.crypto) with
      | none => [.debugCoinList]
      | some btc =>
        [.overviewJoin sd ed] ++
        (if (filterAllNull (overviewSQL db sd ed btc)).isEmpty then
           [.debugMinMax "crypto_prices", .debugMinMax "oil_prices",
            .debugMinMax "stock_prices", .debugTickers]
         else [])))

/-- Store accesses of one Top 3 Crypto Analysis render (app.py 609-678):
top-3 selection and display names and date-range discovery all run before the
range validation; the per-coin price query runs after it. -/
def page3Trace (db : DB) (sd ed : Nat) : List DataQuery :=
  [.latestTop3Q] ++
  (if (latestTop3 db.crypto).length < 3 then [.avgTop3Q] else []) ++
  (if get_top3 db.crypto = [] then []
   else
     [.metaNamesQ] ++ dbRangeQueries ++
     (if ed < sd then [] else [.coinPrices sd ed]))

/-! ## Query catalog (SQL Query Runner page, app.py 351-557) -/

/-- The predefined query catalog `QUERY_GROUPS` (app.py 351-541), verbatim:
group title, then (label, SQL text) pairs in program order. -/
def QUERY_GROUPS : List (String × List (String × String)) :=
  [("📊 Cryptocurrencies (Metadata)",
    [("1. Top 3 Cryptocurrencies by Market Cap",
      "SELECT name, market_cap\nFROM cryptocurrencies\nORDER BY market_cap DESC\nLIMIT 3;"),
     ("2. Coins Where Circulating Supply > 90% of Total",
      "SELECT name, circulating_supply, total_supply\nFROM cryptocurrencies\nWHERE circulating_supply >= 0.9 * total_supply;"),
     ("3. Coins Within 10% of All-Time High (ATH)",
      "SELECT name, current_price, ath\nFROM cryptocurrencies\nWHERE current_price >= 0.9 * ath;"),
     ("4. Avg Market Cap Rank of Coins With Volume > $1B",
      "SELECT AVG(market_cap_rank) AS avg_rank\nFROM cryptocurrencies\nWHERE total_volume > 1000000000;"),
     ("5. Most Recently Updated Coin",
      "SELECT name, last_updated\nFROM cryptocurrencies\nORDER BY last_updated DESC\nLIMIT 1;")]),
   ("💰 Crypto Prices (Daily)",
    [("6. Highest Bitcoin Price (Last 365 Days)",
      "SELECT MAX(price_usd) AS max_price\nFROM crypto_prices\nWHERE coin_id = \x27bitcoin\x27\nAND date(date) >= DATE(\x27now\x27, \x27-365 day\x27);"),
     ("7. Average Ethereum Price (Past 1 Year)",
      "SELECT ROUND(AVG(price_usd), 2) AS avg_price\nFROM crypto_prices\nWHERE coin_id = \x27ethereum\x27\nAND date(date) >= DATE(\x27now\x27, \x27-365 day\x27);"),
     ("8. Bitcoin Daily Price Trend in 2025",
      "SELECT date(date) AS date, price_usd\nFROM crypto_prices\nWHERE coin_id = \x27bitcoin\x27\nAND date(date) BETWEEN \x272025-01-01\x27 AND \x272025-12-31\x27\nORDER BY date;"),
     ("9. Coin With Highest Average Price (All Time)",
      "SELECT coin_id, ROUND(AVG(price_usd), 2) AS avg_price\nFROM crypto_prices\nGROUP BY coin_id\nORDER BY avg_price DESC\nLIMIT 1;"),
     ("10. Bitcoin % Price Change (Sep 2024 to Sep 2025)",
      "SELECT\n  ROUND((MAX(price_usd) - MIN(price_usd)) * 100.0 / MIN(price_usd), 2) AS pct_change\nFROM crypto_prices\nWHERE coin_id = \x27bitcoin\x27\nAND date(date) BETWEEN \x272024-09-01\x27 AND \x272025-09-30\x27;")]),
   ("🛢 Oil Prices",
    [("11. Highest Oil Price (Last 5 Years)",
      "SELECT ROUND(MAX(price), 2) AS max_oil_price\nFROM oil_prices\nWHERE date(date) >= DATE(\x27now\x27, \x27-5 years\x27);"),
     ("12. Average Oil Price Per Year",
      "SELECT strftime(\x27%Y\x27, date) AS year,\n       ROUND(AVG(price), 2) AS avg_price\nFROM oil_prices\nGROUP BY year\nORDER BY year;"),
     ("13. Oil Prices During COVID Crash (Mar–Apr 2020)",
      "SELECT date(date) AS date, price\nFROM oil_prices\nWHERE date(date) BETWEEN \x272020-03-01\x27 AND \x272020-04-30\x27\nORDER BY date;"),
     ("14. Lowest Oil Price (All Time)",
      "SELECT ROUND(MIN(price), 2) AS min_oil_price\nFROM oil_prices;"),
     ("15. Oil Price Volatility Per Year (Max - Min)",
      "SELECT strftime(\x27%Y\x27, date) AS year,\n       ROUND(MAX(price) - MIN(price), 2) AS volatility\nFROM oil_prices\nGROUP BY year\nORDER BY year;")]),
   ("📈 Stock Prices",
    [("16. All Stock Prices for S&P 500 (^GSPC)",
      "SELECT date(date) AS date, open, high, low, close, volume\nFROM stock_prices\nWHERE ticker = \x27^GSPC\x27\nORDER BY date DESC\nLIMIT 100;"),
     ("17. Highest Closing Price for NASDAQ (^IXIC)",
      "SELECT ROUND(MAX(close), 2) AS max_close\nFROM stock_prices\nWHERE ticker = \x27^IXIC\x27;"),
     ("18. Top 5 Days With Highest Price Spread for S&P 500",
      "SELECT date(date) AS date,\n       ROUND(high - low, 2) AS spread\nFROM stock_prices\nWHERE ticker = \x27^GSPC\x27\nORDER BY spread DESC\nLIMIT 5;"),
     ("19. Monthly Average Closing Price Per Ticker",
      "SELECT ticker,\n       strftime(\x27%Y-%m\x27, date) AS month,\n       ROUND(AVG(close), 2) AS avg_close\nFROM stock_prices\nGROUP BY ticker, month\nORDER BY ticker, month;"),
     ("20. Average Trading Volume of NSEI in 2024",
      "SELECT ROUND(AVG(volume), 0) AS avg_volume\nFROM stock_prices\nWHERE ticker = \x27^NSEI\x27\nAND strftime(\x27%Y\x27, date) = \x272024\x27;")]),
   ("🔗 Cross-Market Join Queries",
    [("21. Bitcoin vs Oil Average Price in 2025",
      "SELECT\n  ROUND(AVG(cp.price_usd), 2) AS avg_bitcoin,\n  ROUND(AVG(op.price), 2)     AS avg_oil\nFROM crypto_prices cp\nJOIN oil_prices op ON date(cp.date) = date(op.date)\nWHERE cp.coin_id = \x27bitcoin\x27\nAND date(cp.date) BETWEEN \x272025-01-01\x27 AND \x272025-12-31\x27;"),
     ("22. Bitcoin vs S&P 500 (Correlation Check)",
      "SELECT date(cp.date) AS date,\n       cp.price_usd AS bitcoin_price,\n       sp.close     AS sp500_close\nFROM crypto_prices cp\nJOIN stock_prices sp ON date(cp.date) = date(sp.date)\nWHERE cp.coin_id = \x27bitcoin\x27\nAND sp.ticker = \x27^GSPC\x27\nORDER BY date DESC\nLIMIT 60;"),
     ("23. Ethereum vs NASDAQ Daily Prices in 2025",
      "SELECT date(cp.date) AS date,\n       cp.price_usd AS ethereum_price,\n       sp.close     AS nasdaq_close\nFROM crypto_prices cp\nJOIN stock_prices sp ON date(cp.date) = date(sp.date)\nWHERE cp.coin_id = \x27ethereum\x27\nAND sp.ticker = \x27^IXIC\x27\nAND date(cp.date) BETWEEN \x272025-01-01\x27 AND \x272025-12-31\x27\nORDER BY date;"),
     ("24. Oil Price Spikes vs Bitcoin Price Change",
      "SELECT date(op.date) AS date,\n       op.price          AS oil_price,\n       cp.price_usd      AS bitcoin_price\nFROM oil_prices op\nJOIN crypto_prices cp ON date(op.date) = date(cp.date)\nWHERE cp.coin_id = \x27bitcoin\x27\nORDER BY op.price DESC\nLIMIT 20;"),
     ("25. Top 3 Crypto Coins vs NIFTY (^NSEI) 2025",
      "SELECT date(cp.date) AS date,\n       cp.coin_id,\n       cp.price_usd AS crypto_price,\n       sp.close     AS nifty_close\nFROM crypto_prices cp\nJOIN stock_prices sp ON date(cp.date) = date(sp.date)\nWHERE sp.ticker = \x27^NSEI\x27\nAND date(cp.date) BETWEEN \x272025-01-01\x27 AND \x272025-12-31\x27\nAND cp.coin_id IN (\n    SELECT coin_id FROM crypto_prices\n    GROUP BY coin_id ORDER BY AVG(price_usd) DESC LIMIT 3\n)\nORDER BY date, cp.coin_id;"),
     ("26. S&P 500 vs Crude Oil on Same Dates",
      "SELECT date(sp.date) AS date,\n       sp.close  AS sp500_close,\n       op.price  AS oil_price\nFROM stock_prices sp\nJOIN oil_prices op ON date(sp.date) = date(op.date)\nWHERE sp.ticker = \x27^GSPC\x27\nORDER BY date DESC\nLIMIT 60;"),
     ("27. Bitcoin vs Crude Oil (Same Date Correlation)",
      "SELECT date(cp.date) AS date,\n       cp.price_usd AS bitcoin_price,\n       op.price     AS oil_price\nFROM crypto_prices cp\nJOIN oil_prices op ON date(cp.date) = date(op.date)\nWHERE cp.coin_id = \x27bitcoin\x27\nORDER BY date DESC\nLIMIT 60;"),
     ("28. NASDAQ vs Ethereum Price Trends",
      "SELECT date(sp.date) AS date,\n       sp.close     AS nasdaq_close,\n       cp.price_usd AS ethereum_price\nFROM stock_prices sp\nJOIN crypto_prices cp ON date(sp.date) = date(cp.date)\nWHERE sp.ticker = \x27^IXIC\x27\nAND cp.coin_id = \x27ethereum\x27\nORDER BY date DESC\nLIMIT 60;"),
     ("29. Top 3 Crypto Coins Joined with Stock Indices (2025)",
      "SELECT date(cp.date) AS date,\n       cp.coin_id,\n       cp.price_usd AS crypto_price,\n       sp.ticker,\n       sp.close     AS stock_close\nFROM crypto_prices cp\nJOIN stock_prices sp ON date(cp.date) = date(sp.date)\nWHERE date(cp.date) BETWEEN \x272025-01-01\x27 AND \x272025-12-31\x27\nAND cp.coin_id IN (\n    SELECT coin_id FROM crypto_prices\n    GROUP BY coin_id ORDER BY AVG(price_usd) DESC LIMIT 3\n)\nAND sp.ticker IN (\x27^GSPC\x27, \x27^NSEI\x27, \x27^IXIC\x27)\nORDER BY date, cp.coin_id, sp.ticker;"),
     ("30. Multi-Join: Stocks + Oil + Bitcoin (Daily)",
      "SELECT date(cp.date) AS date,\n       cp.price_usd AS bitcoin_price,\n       op.price     AS oil_price,\n       sp.close     AS sp500_close\nFROM crypto_prices cp\nJOIN oil_prices op   ON date(cp.date) = date(op.date)\nJOIN stock_prices sp ON date(cp.date) = date(sp.date)\nWHERE cp.coin_id = \x27bitcoin\x27\nAND sp.ticker = \x27^GSPC\x27\nORDER BY date DESC\nLIMIT 60;")])]

/-- The merged label-to-SQL dict `PREDEFINED` (app.py 544-546): successive
`dict.update` calls append the groups in order (an existing key would be
overwritten, i.e. the last occurrence of a label wins on lookup). -/
def PREDEFINED : List (String × String) :=
  QUERY_GROUPS.flatMap Prod.snd

def allLabels : List String := PREDEFINED.map Prod.fst

/-- Scan a SQL text for a bound-parameter placeholder (`?`, `:name`, `@name`,
`$name`) outside single-quoted string literals.  The boolean state tracks
whether the scan is inside a quoted literal. -/
def paramScan : Bool → List Char → Bool
  | _, [] => false
  | inQ, c :: rest =>
    if c = Char.ofNat 39 then paramScan (!inQ) rest
    else if !inQ && (c = Char.ofNat 63 || c = Char.ofNat 58 ||
                     c = Char.ofNat 64 || c = Char.ofNat 36) then true
    else paramScan inQ rest

/-- `true` iff the statement takes at least one bound parameter. -/
def hasBoundParam (s : String) : Bool := paramScan false s.data

/-! ## Predicates used by the calendar-union claim -/

/-- The date `d` occurs in one of the three source series (crypto restricted
to the selected coin). -/
def occursInSource (db : DB) (btc : String) (d : Nat) : Prop :=
  (∃ r ∈ db.crypto, r.coin_id = btc ∧ r.date = d) ∨
  (∃ r ∈ db.oil, r.date = d) ∨
  (∃ r ∈ db.stock, r.date = d) 

/-- Each of the four joined series has at most one row per calendar date:
the crypto rows of the selected coin, the oil rows, and the rows of each of the
two joined tickers have pairwise-distinct dates. -/
def seriesDupFree (db : DB) (btc : String) : Prop :=
  ((db.crypto.filter (fun r => r.coin_id == btc)).map (·.date)).Nodup ∧
  (db.oil.map (·.date)).Nodup ∧
  ((db.stock.filter (fun r => r.ticker == "^GSPC")).map (·.date)).Nodup ∧
  ((db.stock.filter (fun r => r.ticker == "^NSEI")).map (·.date)).Nodup

instance (db : DB) (btc : String) (d : Nat) : Decidable (occursInSource db btc d) := by
  unfold occursInSource
  infer_instance

instance (db : DB) (btc : String) : Decidable (seriesDupFree db btc) := by
  unfold seriesDupFree
  infer_instance

/-! ## Shared lemmas -/

theorem sortByPriceDesc_length (l : List (String × Option ℚ)) :
    (sortByPriceDesc l).length = l.length :=
  (List.perm_insertionSort priceDesc l).length_eq

theorem avgTable_fst (crypto : List CryptoRow) :
    (avgTable crypto).map Prod.fst = coinIds crypto := by
  simp [avgTable, List.map_map, Function.comp_def]

theorem latestTable_fst (crypto : List CryptoRow) :
    (latestTable crypto).map Prod.fst = coinIds crypto := by
  simp [latestTable, List.map_map, Function.comp_def]

theorem latestTop3_length (crypto : List CryptoRow) :
    (latestTop3 crypto).length = min 3 (coinIds crypto).length := by
  simp [latestTop3, sortByPriceDesc_length, latestTable]

theorem avgTop3_length (crypto : List CryptoRow) :
    (avgTop3 crypto).length = min 3 (coinIds crypto).length := by
  simp [avgTop3, avgRanking, sortByPriceDesc_length, avgTable]

theorem optJoin_ne_nil (l : List (Option ℚ)) : optJoin l ≠ [] := by
  cases l <;> simp [optJoin]

theorem mem_optJoin_some {v : ℚ} {l : List (Option ℚ)} (h : some v ∈ optJoin l) :
    some v ∈ l := by
  cases l with
  | nil => simp [optJoin] at h
  | cons a t => exact h

theorem mem_rowBlock {r : OverviewRow} {d : Nat} {cs os ss ns : List (Option ℚ)}
    (h : r ∈ rowBlock d cs os ss ns) :
    r.date = d ∧ r.bitcoin ∈ optJoin cs ∧ r.oil ∈ optJoin os ∧
      r.sp500 ∈ optJoin ss ∧ r.nifty ∈ optJoin ns := by
  simp only [rowBlock, List.mem_flatMap, List.mem_map] at h
  obtain ⟨b, hb, o, ho, s, hs, n, hn, rfl⟩ := h
  exact ⟨rfl, hb, ho, hs, hn⟩

theorem rowBlock_exists_mem (d : Nat) (cs os ss ns : List (Option ℚ)) :
    ∃ r ∈ rowBlock d cs os ss ns, r.date = d := by
  obtain ⟨b, hb⟩ := List.exists_mem_of_ne_nil _ (optJoin_ne_nil cs)
  obtain ⟨o, ho⟩ := List.exists_mem_of_ne_nil _ (optJoin_ne_nil os)
  obtain ⟨s, hs⟩ := List.exists_mem_of_ne_nil _ (optJoin_ne_nil ss)
  obtain ⟨n, hn⟩ := List.exists_mem_of_ne_nil _ (optJoin_ne_nil ns)
  refine ⟨⟨d, b, o, s, n⟩, ?_, rfl⟩
  simp only [rowBlock, List.mem_flatMap, List.mem_map]
  exact ⟨b, hb, o, ho, s, hs, n, hn, rfl⟩

/-! ## Claim theorems -/

/-- Claim C3: every row surviving the all-null filter (app.py 216) has at least
one non-null series value: no row of any output of the calendar-alignment
step has all four of bitcoin, oil, S&P 500 and NIFTY null. -/
theorem C3_no_all_null_rows (db : DB) (sd ed : Nat) (btc : String) :
    ∀ r ∈ filterAllNull (overviewSQL db sd ed btc),
      ¬(r.bitcoin = none ∧ r.oil = none ∧ r.sp500 = none ∧ r.nifty = none) := by
  intro r hr hall
  obtain ⟨-, h⟩ := List.mem_filter.mp hr
  simp [allNullRow, hall.1, hall.2.1, hall.2.2.1, hall.2.2.2] at h

/-- Witness for C3 at a concrete database: the single surviving row has a
non-null bitcoin value. -/
theorem C3_no_all_null_rows_witness :
    (⟨1, some 5, none, none, none⟩ : OverviewRow) ∈
      filterAllNull (overviewSQL ⟨[⟨"bitcoin", 1, some 5⟩], [], [], []⟩ 0 2 "bitcoin") ∧
    ¬((⟨1, some 5, none, none, none⟩ : OverviewRow).bitcoin = none ∧
      (⟨1, some 5, none, none, none⟩ : OverviewRow).oil = none ∧
      (⟨1, some 5, none, none, none⟩ : OverviewRow).sp500 = none ∧
      (⟨1, some 5, none, none, none⟩ : OverviewRow).nifty = none) :=
  ⟨by decide,
   C3_no_all_null_rows ⟨[⟨"bitcoin", 1, some 5⟩], [], [], []⟩ 0 2 "bitcoin"
     ⟨1, some 5, none, none, none⟩ (by decide)⟩

/-- Claim C5: fallback exclusivity of `get_top3` — when the latest-price query
yields fewer than 3 rows, the returned ranking is the all-time-average
ranking used wholesale; in every case the result is entirely one of the two
rankings, never a mix. -/
theorem C5_fallback_exclusivity (crypto : List CryptoRow) :
    ((latestTop3 crypto).length < 3 →
      get_top3 crypto = (avgTop3 crypto).map Prod.fst) ∧
    (get_top3 crypto = (latestTop3 crypto).map Prod.fst ∨
     get_top3 crypto = (avgTop3 crypto).map Prod.fst) := by
  constructor
  · intro h
    simp [get_top3, h]
  · by_cases h : (latestTop3 crypto).length < 3
    · right; simp [get_top3, h]
    · left; simp [get_top3, h]

/-- Witness for C5 at a concrete two-coin database where the fallback fires. -/
theorem C5_fallback_exclusivity_witness :
    (latestTop3 [⟨"a", 1, some 10⟩, ⟨"b", 1, some 20⟩]).length < 3 ∧
    get_top3 [⟨"a", 1, some 10⟩, ⟨"b", 1, some 20⟩] =
      (avgTop3 [⟨"a", 1, some 10⟩, ⟨"b", 1, some 20⟩]).map Prod.fst :=
  ⟨by decide,
   (C5_fallback_exclusivity [⟨"a", 1, some 10⟩, ⟨"b", 1, some 20⟩]).1 (by decide)⟩

/-- Claim C6: `get_top3` returns at most 3 identifiers, and when the source has
fewer than 3 distinct coins it returns exactly the distinct coins — the whole
average ranking (ranked order), a permutation of the distinct-coin set. -/
theorem C6_top3_cardinality (crypto : List CryptoRow) :
    (get_top3 crypto).length ≤ 3 ∧
    ((coinIds crypto).length < 3 →
      get_top3 crypto = (avgRanking crypto).map Prod.fst ∧
      (get_top3 crypto).Perm (coinIds crypto)) := by
  constructor
  · have h1 := latestTop3_length crypto
    have h2 := avgTop3_length crypto
    by_cases h : (latestTop3 crypto).length < 3
    · simp only [get_top3, if_pos h, List.length_map]
      omega
    · simp only [get_top3, if_neg h, List.length_map]
      omega
  · intro h
    have hl : (latestTop3 crypto).length < 3 := by
      rw [latestTop3_length]; omega
    have hfall : get_top3 crypto = (avgTop3 crypto).map Prod.fst := by
      simp [get_top3, hl]
    have hall : avgTop3 crypto = avgRanking crypto := by
      apply List.take_of_length_le
      rw [avgRanking, sortByPriceDesc_length]
      simp only [avgTable, List.length_map]
      omega
    refine ⟨by rw [hfall, hall], ?_⟩
    rw [hfall, hall]
    calc ((avgRanking crypto).map Prod.fst).Perm ((avgTable crypto).map Prod.fst) :=
          (List.perm_insertionSort priceDesc (avgTable crypto)).map Prod.fst
      _ = coinIds crypto := avgTable_fst crypto

/-- Witness for C6 at a concrete two-coin database. -/
theorem C6_top3_cardinality_witness :
    (coinIds [⟨"a", 1, some 10⟩, ⟨"b", 1, some 20⟩]).length < 3 ∧
    get_top3 [⟨"a", 1, some 10⟩, ⟨"b", 1, some 20⟩] =
      (avgRanking [⟨"a", 1, some 10⟩, ⟨"b", 1, some 20⟩]).map Prod.fst ∧
    (get_top3 [⟨"a", 1, some 10⟩, ⟨"b", 1, some 20⟩]).Perm
      (coinIds [⟨"a", 1, some 10⟩, ⟨"b", 1, some 20⟩]) :=
  ⟨by decide,
   (C6_top3_cardinality [⟨"a", 1, some 10⟩, ⟨"b", 1, some 20⟩]).2 (by decide)⟩

/-- Claim C7 fails as stated: display-name resolution is not effectively
case-insensitive.  At this input the metadata row with stored id `"Bitcoin"`
matches the queried identifier `"bitcoin"` case-insensitively (the SQL filter
returns the row), but the dict built by `get_coin_display_names` is keyed by
the stored id, so the lookup of the raw identifier misses and the title-cased
fallback `"Bitcoin"` is returned instead of `"Bitcoin (BTC)"`. -/
theorem C7_counterexample :
    pyLower "Bitcoin" = pyLower "bitcoin" ∧
    (⟨"Bitcoin", "Bitcoin", "btc"⟩ : CoinMeta) ∈
      metaFiltered [⟨"Bitcoin", "Bitcoin", "btc"⟩] ["bitcoin"] ∧
    displayLabel [⟨"Bitcoin", "Bitcoin", "btc"⟩] ["bitcoin"] "bitcoin" = "Bitcoin" ∧
    displayLabel [⟨"Bitcoin", "Bitcoin", "btc"⟩] ["bitcoin"] "bitcoin" ≠
      mkLabel ⟨"Bitcoin", "Bitcoin", "btc"⟩ := by
  refine ⟨by decide, by decide, by decide, by decide⟩

/-- Claim C7 as amended: display-name resolution never raises (`displayLabel`
is total by construction); a queried identifier whose stored metadata id
equals it exactly resolves to `"Name (SYMBOL)"`, and an identifier with no
exact stored-id match falls back to the title-cased raw identifier — the
case-insensitive SQL filter is nullified by the exact-key dict lookup. -/
theorem C7_display_name_resolution (meta : List CoinMeta) (coins : List String)
    (c : String) (hc : c ∈ coins) (hnd : (meta.map (·.id)).Nodup) :
    (∀ m ∈ meta, m.id = c → displayLabel meta coins c = mkLabel m) ∧
    ((∀ m ∈ meta, m.id ≠ c) → displayLabel meta coins c = pyTitle c) := by
  constructor
  · intro m hm hid
    have hmf : m ∈ metaFiltered meta coins := by
      rw [metaFiltered, List.mem_filter]
      refine ⟨hm, ?_⟩
      rw [hid]
      have hcl : pyLower c ∈ coins.map pyLower := List.mem_map_of_mem pyLower hc
      simp only [List.contains_eq_any_beq, List.any_eq_true]
      exact ⟨pyLower c, hcl, by simp⟩
    have hpair : (m.id, mkLabel m) ∈ get_coin_display_names meta coins := by
      rw [get_coin_display_names]
      exact List.mem_map_of_mem _ hmf
    have hsome :
        ((get_coin_display_names meta coins).reverse.find?
          (fun p => p.1 == c)).isSome := by
      rw [List.find?_isSome]
      exact ⟨(m.id, mkLabel m), List.mem_reverse.mpr hpair, by simp [hid]⟩
    obtain ⟨e, he⟩ := Option.isSome_iff_exists.mp hsome
    have hpe0 := List.find?_some he
    have hpe : (e.1 == c) = true := hpe0
    have hmeme : e ∈ (get_coin_display_names meta coins).reverse :=
      List.mem_of_find?_eq_some he
    rw [List.mem_reverse, get_coin_display_names, List.mem_map] at hmeme
    obtain ⟨m2, hm2f, hm2e⟩ := hmeme
    have hm2 : m2 ∈ meta := (List.mem_filter.mp hm2f).1
    have hid2 : m2.id = c := by
      have h1 : e.1 = m2.id := by rw [← hm2e]
      rw [h1] at hpe
      exact beq_iff_eq.mp hpe
    have hm2m : m2 = m :=
      List.inj_on_of_nodup_map hnd hm2 hm (by rw [hid2, hid])
    have he2 : e.2 = mkLabel m := by
      rw [← hm2e, ← hm2m]
    rw [displayLabel, dictLookup, he]
    simp [he2]
  · intro hall
    have hnone :
        (get_coin_display_names meta coins).reverse.find?
          (fun p => p.1 == c) = none := by
      rw [List.find?_eq_none]
      intro x hx
      rw [List.mem_reverse, get_coin_display_names, List.mem_map] at hx
      obtain ⟨m2, hm2f, rfl⟩ := hx
      have hm2 : m2 ∈ meta := (List.mem_filter.mp hm2f).1
      simp [hall m2 hm2]
    rw [displayLabel, dictLookup, hnone]
    rfl

/-- Witness for C7 at a concrete input with an exact stored-id match. -/
theorem C7_display_name_resolution_witness :
    "bitcoin" ∈ ["bitcoin"] ∧
    (⟨"bitcoin", "Bitcoin", "btc"⟩ : CoinMeta) ∈ [(⟨"bitcoin", "Bitcoin", "btc"⟩ : CoinMeta)] ∧
    displayLabel [⟨"bitcoin", "Bitcoin", "btc"⟩] ["bitcoin"] "bitcoin" =
      mkLabel ⟨"bitcoin", "Bitcoin", "btc"⟩ :=
  ⟨by decide, by decide,
   (C7_display_name_resolution [⟨"bitcoin", "Bitcoin", "btc"⟩] ["bitcoin"] "bitcoin"
     (by decide) (by decide)).1 ⟨"bitcoin", "Bitcoin", "btc"⟩ (by decide) (by decide)⟩

/-- Claim C4 fails as stated: with an invalid range (start 5 > end 3), both
views still issue store queries before the validation check fires — the
date-range discovery queries on both pages, and the top-3 selection queries
on the analysis page — so the trace of issued queries is not empty. -/
theorem C4_counterexample :
    3 < 5 ∧
    page1Trace ⟨[], [], [], []⟩ 5 3 ≠ [] ∧
    page3Trace ⟨[], [], [], []⟩ 5 3 ≠ [] := by
  refine ⟨by decide, by decide, by decide⟩

/-- Claim C4 as amended: when `start_date > end_date`, the validation fires
before any range-parameterized query — every query issued during either
view render is range-independent (date-range discovery, top-3 selection,
display names); the overview join and the per-coin price query are never
issued. -/
theorem C4_range_validation (db : DB) (sd ed : Nat) (h : ed < sd) :
    (∀ q ∈ page1Trace db sd ed, isRangeParamQuery q = false) ∧
    (∀ q ∈ page3Trace db sd ed, isRangeParamQuery q = false) := by
  constructor
  · intro q hq
    rw [page1Trace, if_pos h, List.append_nil] at hq
    simp only [dbRangeQueries, List.mem_cons, List.not_mem_nil, or_false] at hq
    rcases hq with rfl | rfl | rfl <;> rfl
  · intro q hq
    rw [page3Trace, if_pos h, List.append_nil] at hq
    rcases List.mem_append.mp hq with hq1 | hq1
    · rcases List.mem_append.mp hq1 with hq2 | hq2
      · simp only [List.mem_singleton] at hq2
        subst hq2; rfl
      · split at hq2
        · simp only [List.mem_singleton] at hq2
          subst hq2; rfl
        · simp at hq2
    · split at hq1
      · simp at hq1
      · simp only [dbRangeQueries, List.mem_append, List.mem_cons,
          List.not_mem_nil, List.mem_singleton, or_false] at hq1
        rcases hq1 with rfl | rfl | rfl | rfl <;> rfl

/-- Witness for C4 at a concrete invalid range. -/
theorem C4_range_validation_witness :
    3 < 5 ∧
    ((∀ q ∈ page1Trace ⟨[], [], [], []⟩ 5 3, isRangeParamQuery q = false) ∧
     (∀ q ∈ page3Trace ⟨[], [], [], []⟩ 5 3, isRangeParamQuery q = false)) :=
  ⟨by decide, C4_range_validation ⟨[], [], [], []⟩ 5 3 (by decide)⟩

/-- Claim C10: the overview crypto series is the price series of one single
coin.  (1) When some coin id contains "bitcoin" or "btc" case-insensitively,
the selector returns such an id.  (2) Otherwise, on a non-empty
`crypto_prices`, it falls back to the head of the all-time-average ranking,
whose average dominates the average of every coin.  (3) On an empty
`crypto_prices` the selector returns no coin and the overview halts with the
no-bitcoin error instead of rendering.  (4) Every non-null value in the
bitcoin column of the overview query comes from a `crypto_prices` row of the
selected coin on that calendar date. -/
theorem C10_bitcoin_selector :
    (∀ crypto : List CryptoRow, (∃ c ∈ coinIds crypto, isBtcLike c = true) →
      ∃ c, get_bitcoin_coin_id crypto = some c ∧ isBtcLike c = true) ∧
    (∀ crypto : List CryptoRow, crypto ≠ [] → btcLikeMatches crypto = [] →
      ∃ p, (avgRanking crypto).head? = some p ∧
        get_bitcoin_coin_id crypto = some p.1 ∧
        ∀ q ∈ avgTable crypto, sqlNullLe q.2 p.2) ∧
    (get_bitcoin_coin_id [] = none ∧
      ∀ db : DB, ∀ sd ed : Nat, db.crypto = [] → sd ≤ ed →
        overviewView db sd ed = .noBitcoin) ∧
    (∀ db : DB, ∀ sd ed : Nat, ∀ btc : String,
      ∀ r ∈ overviewSQL db sd ed btc, ∀ v : ℚ, r.bitcoin = some v →
        ∃ cr ∈ db.crypto, cr.coin_id = btc ∧ cr.date = r.date ∧
          cr.price_usd = some v) := by
  refine ⟨?_, ?_, ⟨rfl, ?_⟩, ?_⟩
  · rintro crypto ⟨c, hc, hbtc⟩
    cases hm : btcLikeMatches crypto with
    | nil =>
      exfalso
      rw [btcLikeMatches, List.filter_eq_nil_iff] at hm
      exact hm c hc hbtc
    | cons c0 t =>
      refine ⟨c0, by simp [get_bitcoin_coin_id, hm], ?_⟩
      have hc0 : c0 ∈ btcLikeMatches crypto := by
        rw [hm]; exact List.mem_cons_self c0 t
      exact (List.mem_filter.mp hc0).2
  · intro crypto hne hnil
    have hcoin : coinIds crypto ≠ [] := by
      rw [coinIds]
      intro hh
      rw [List.dedup_eq_nil, List.map_eq_nil_iff] at hh
      exact hne hh
    have hrank : avgRanking crypto ≠ [] := by
      intro hh
      apply hcoin
      have hlen := sortByPriceDesc_length (avgTable crypto)
      rw [avgRanking] at hh
      rw [hh] at hlen
      simp only [List.length_nil] at hlen
      have : avgTable crypto = [] := List.length_eq_zero.mp hlen.symm
      rw [avgTable, List.map_eq_nil_iff] at this
      exact this
    cases hr : avgRanking crypto with
    | nil => exact absurd hr hrank
    | cons p t =>
      refine ⟨p, rfl, ?_, ?_⟩
      · rw [get_bitcoin_coin_id]
        rw [hnil]
        rw [hr]
        rfl
      · intro q hq
        have hsorted : List.Sorted priceDesc (avgRanking crypto) :=
          List.sorted_insertionSort priceDesc (avgTable crypto)
        rw [hr] at hsorted
        have hqmem : q ∈ avgRanking crypto := by
          rw [avgRanking]
          exact (List.mem_insertionSort priceDesc).mpr hq
        rw [hr] at hqmem
        rcases List.mem_cons.mp hqmem with rfl | hqt
        · exact sqlNullLe_refl _
        · exact List.rel_of_sorted_cons hsorted q hqt
  · intro db sd ed hcr hle
    rw [overviewView, if_neg (by omega), hcr]
    rfl
  · intro db sd ed btc r hr v hv
    have hr2 : r ∈ (all_dates db sd ed).flatMap (fun d =>
        rowBlock d (cpMatches db btc d) (oilMatches db d)
          (stockMatches db "^GSPC" d) (stockMatches db "^NSEI" d)) := by
      rw [overviewSQL] at hr
      exact (List.mem_insertionSort dateDesc).mp hr
    obtain ⟨d, hd, hblock⟩ := List.mem_flatMap.mp hr2
    obtain ⟨hdate, hbit, -, -, -⟩ := mem_rowBlock hblock
    rw [hv] at hbit
    have hcp : some v ∈ cpMatches db btc d := mem_optJoin_some hbit
    rw [cpMatches, List.mem_map] at hcp
    obtain ⟨cr, hcrf, hcrp⟩ := hcp
    obtain ⟨hcrm, hcond⟩ := List.mem_filter.mp hcrf
    simp only [Bool.and_eq_true, beq_iff_eq] at hcond
    exact ⟨cr, hcrm, hcond.1, by rw [hcond.2, hdate], hcrp⟩

/-- Witness for C10 at concrete inputs: the LIKE branch on a one-coin
database, and the empty-database halt at a valid range. -/
theorem C10_bitcoin_selector_witness :
    ((∃ c ∈ coinIds [⟨"bitcoin", 1, some 5⟩], isBtcLike c = true) ∧
      (∃ c, get_bitcoin_coin_id [⟨"bitcoin", 1, some 5⟩] = some c ∧
        isBtcLike c = true)) ∧
    ((⟨[], [], [], []⟩ : DB).crypto = [] ∧ 0 ≤ 2 ∧
      overviewView ⟨[], [], [], []⟩ 0 2 = .noBitcoin) :=
  ⟨⟨by decide, C10_bitcoin_selector.1 [⟨"bitcoin", 1, some 5⟩] (by decide)⟩,
   ⟨rfl, by decide,
    C10_bitcoin_selector.2.2.1.2 ⟨[], [], [], []⟩ 0 2 rfl (by decide)⟩⟩

theorem firstNonNullIdx_spec :
    ∀ (col : List (Option ℚ)) (i : Nat), firstNonNullIdx col = some i →
      ∃ v, col.get? i = some (some v) ∧ firstNonNull col = some v := by
  intro col
  induction col with
  | nil => intro i h; simp [firstNonNullIdx] at h
  | cons a rest ih =>
    intro i h
    cases a with
    | some v =>
      simp only [firstNonNullIdx, Option.some_inj] at h
      subst h
      exact ⟨v, rfl, rfl⟩
    | none =>
      simp only [firstNonNullIdx] at h
      cases hj : firstNonNullIdx rest with
      | none => rw [hj] at h; simp at h
      | some j =>
        rw [hj] at h
        simp only [Option.map_some', Option.some_inj] at h
        obtain ⟨v, hv1, hv2⟩ := ih j hj
        subst h
        exact ⟨v, by simpa using hv1, by simpa [firstNonNull] using hv2⟩

theorem firstNonNull_some_idx :
    ∀ (col : List (Option ℚ)) (f : ℚ), firstNonNull col = some f →
      ∃ i, firstNonNullIdx col = some i := by
  intro col
  induction col with
  | nil => intro f h; exact Option.noConfusion h
  | cons a rest ih =>
    intro f h
    cases a with
    | some v => exact ⟨0, rfl⟩
    | none =>
      rw [firstNonNull] at h
      obtain ⟨i, hi⟩ := ih f h
      exact ⟨i + 1, by simp [firstNonNullIdx, hi]⟩

/-- Claim C2 fails as stated: a series column whose first chronological
non-null value is `0` has a non-null value, yet after normalization the value
at that first non-null row is `0/0*100`, not `100.0` (in pandas float
arithmetic, `NaN`) — the anchor property needs the first value to be
nonzero. -/
theorem C2_counterexample :
    ([some (0 : ℚ), some 5] ∈ overviewPlotCols
      ⟨[⟨"bitcoin", 1, some 0⟩, ⟨"bitcoin", 2, some 5⟩], [], [], []⟩ 0 9 "bitcoin") ∧
    firstNonNull [some (0 : ℚ), some 5] = some 0 ∧
    firstNonNullIdx [some (0 : ℚ), some 5] = some 0 ∧
    (normalizeCol [some (0 : ℚ), some 5]).get? 0 ≠ some (some 100) := by
  refine ⟨by decide, by decide, by decide, ?_⟩
  have h0 : (normalizeCol [some (0 : ℚ), some 5]).get? 0 =
      some (some ((0 : ℚ) / 0 * 100)) := rfl
  rw [h0]
  simp [zero_div]

/-- Claim C2 as amended: for every series column of the sorted, filtered
overview frame, an all-null column is left untouched by the normalization
pass (which is total — it cannot raise), and a column whose first non-null
value `f` is nonzero is rescaled entrywise by `100/f`, so the entry at the
first non-null row becomes exactly `100`. -/
theorem C2_normalization_anchor (db : DB) (sd ed : Nat) (btc : String) :
    ∀ col ∈ overviewPlotCols db sd ed btc,
      (firstNonNull col = none → normalizeCol col = col) ∧
      (∀ f : ℚ, firstNonNull col = some f → f ≠ 0 →
        (∃ i, firstNonNullIdx col = some i ∧
          (normalizeCol col).get? i = some (some 100)) ∧
        (∀ j : Nat, ∀ v : ℚ, col.get? j = some (some v) →
          (normalizeCol col).get? j = some (some (v / f * 100)))) := by
  intro col _
  constructor
  · intro h
    rw [normalizeCol, h]
  · intro f hf hf0
    have hnorm : normalizeCol col = col.map (Option.map (fun v => v / f * 100)) := by
      rw [normalizeCol, hf]
    constructor
    · obtain ⟨i, hi⟩ := firstNonNull_some_idx col f hf
      obtain ⟨v, hv1, hv2⟩ := firstNonNullIdx_spec col i hi
      have hvf : v = f := by
        rw [hf] at hv2
        exact (Option.some_inj.mp hv2).symm
      refine ⟨i, hi, ?_⟩
      rw [hnorm, List.get?_map, hv1]
      simp [hvf, div_self hf0]
    · intro j v hj
      rw [hnorm, List.get?_map, hj]
      rfl

/-- Witness for C2 at a concrete database whose bitcoin column is
`[some 4, some 5]`. -/
theorem C2_normalization_anchor_witness :
    ([some (4 : ℚ), some 5] ∈ overviewPlotCols
      ⟨[⟨"bitcoin", 1, some 4⟩, ⟨"bitcoin", 2, some 5⟩], [], [], []⟩ 0 9 "bitcoin") ∧
    firstNonNull [some (4 : ℚ), some 5] = some 4 ∧ (4 : ℚ) ≠ 0 ∧
    (∃ i, firstNonNullIdx [some (4 : ℚ), some 5] = some i ∧
      (normalizeCol [some (4 : ℚ), some 5]).get? i = some (some 100)) :=
  ⟨by decide, by decide, by decide,
   ((C2_normalization_anchor
       ⟨[⟨"bitcoin", 1, some 4⟩, ⟨"bitcoin", 2, some 5⟩], [], [], []⟩ 0 9 "bitcoin"
       [some (4 : ℚ), some 5] (by decide)).2 4 (by decide) (by decide)).1⟩

theorem countP_flatMap {α β : Type} (l : List α) (f : α → List β) (p : β → Bool) :
    (l.flatMap f).countP p = (l.map (fun a => (f a).countP p)).sum := by
  induction l with
  | nil => simp
  | cons a t ih => simp [ih]

theorem sum_map_zero {α : Type} (l : List α) (g : α → Nat)
    (h : ∀ b ∈ l, g b = 0) : (l.map g).sum = 0 := by
  induction l with
  | nil => rfl
  | cons a t ih =>
    simp only [List.map_cons, List.sum_cons]
    rw [h a (List.mem_cons_self a t), ih (fun b hb => h b (List.mem_cons_of_mem a hb))]

theorem sum_map_single {α : Type} [DecidableEq α] (l : List α) (g : α → Nat)
    (a : α) (hnd : l.Nodup) (ha : a ∈ l) (hz : ∀ b ∈ l, b ≠ a → g b = 0) :
    (l.map g).sum = g a := by
  induction l with
  | nil => cases ha
  | cons x t ih =>
    obtain ⟨hx, hnd2⟩ := List.nodup_cons.mp hnd
    rcases List.mem_cons.mp ha with rfl | hat
    · have hz2 : ∀ b ∈ t, g b = 0 := fun b hb =>
        hz b (List.mem_cons_of_mem _ hb) (fun e => hx (e ▸ hb))
      simp [sum_map_zero t g hz2]
    · have hgx : g x = 0 := hz x (List.mem_cons_self _ _) (fun e => hx (e ▸ hat))
      simp only [List.map_cons, List.sum_cons, hgx, Nat.zero_add]
      exact ih hnd2 hat (fun b hb hbne => hz b (List.mem_cons_of_mem _ hb) hbne)

theorem rowBlock_countP (d e : Nat) (cs os ss ns : List (Option ℚ)) :
    (rowBlock d cs os ss ns).countP (fun r => r.date == e) =
      if d = e then (rowBlock d cs os ss ns).length else 0 := by
  split
  · next h =>
    refine List.countP_eq_length.mpr (fun r hr => ?_)
    have := (mem_rowBlock hr).1
    simp [this, h]
  · next h =>
    refine List.countP_eq_zero.mpr (fun r hr => ?_)
    have := (mem_rowBlock hr).1
    simp [this]
    exact fun e2 => h e2

theorem optJoin_length_one {l : List (Option ℚ)} (h : l.length ≤ 1) :
    (optJoin l).length = 1 := by
  match l with
  | [] => rfl
  | [a] => rfl
  | a :: b :: t => simp at h

theorem rowBlock_length_one {d : Nat} {cs os ss ns : List (Option ℚ)}
    (h1 : (optJoin cs).length = 1) (h2 : (optJoin os).length = 1)
    (h3 : (optJoin ss).length = 1) (h4 : (optJoin ns).length = 1) :
    (rowBlock d cs os ss ns).length = 1 := by
  obtain ⟨b, hb⟩ := List.length_eq_one.mp h1
  obtain ⟨o, ho⟩ := List.length_eq_one.mp h2
  obtain ⟨s, hs⟩ := List.length_eq_one.mp h3
  obtain ⟨n, hn⟩ := List.length_eq_one.mp h4
  rw [rowBlock, hb, ho, hs, hn]
  rfl

theorem length_filter_dates_le_one {α : Type} (rows : List α) (dateOf : α → Nat)
    (d : Nat) (hnd : (rows.map dateOf).Nodup) :
    (rows.filter (fun r => dateOf r == d)).length ≤ 1 := by
  rw [← List.countP_eq_length_filter]
  have e1 : rows.countP (fun r => dateOf r == d) =
      (rows.map dateOf).countP (fun x => x == d) := by
    rw [List.countP_map]
    rfl
  rw [e1]
  exact List.nodup_iff_count_le_one.mp hnd d

theorem filter_and_eq {α : Type} (l : List α) (p q : α → Bool) :
    l.filter (fun a => p a && q a) = (l.filter p).filter (fun a => q a) := by
  rw [List.filter_filter]
  exact (List.filter_congr (fun a _ => Bool.and_comm (q a) (p a))).symm

/-- Claim C1 fails as stated: when a source series holds two rows for the
same calendar date (here two `bitcoin` rows on date 1, which the data model
explicitly tolerates), the left join multiplies the calendar row — date 1 is
in range and occurs in the sources, yet appears twice in the query output,
because the `cp` join subquery does not aggregate duplicates. -/
theorem C1_counterexample :
    inRange 0 2 1 = true ∧
    occursInSource ⟨[⟨"bitcoin", 1, some 1⟩, ⟨"bitcoin", 1, some 2⟩], [], [], []⟩
      "bitcoin" 1 ∧
    (overviewSQL ⟨[⟨"bitcoin", 1, some 1⟩, ⟨"bitcoin", 1, some 2⟩], [], [], []⟩
      0 2 "bitcoin").countP (fun r => r.date == 1) = 2 := by
  refine ⟨by decide, by decide, by decide⟩

/-- Claim C1 as amended: every date of the closed interval present in any
source series appears in the overview query output at least once, and
exactly once provided each joined series (the crypto rows of the selected coin,
oil, and each joined ticker) has at most one row per calendar date. -/
theorem C1_calendar_union (db : DB) (sd ed d : Nat) (btc : String)
    (hr : inRange sd ed d = true) (hocc : occursInSource db btc d) :
    1 ≤ (overviewSQL db sd ed btc).countP (fun r => r.date == d) ∧
    (seriesDupFree db btc →
      (overviewSQL db sd ed btc).countP (fun r => r.date == d) = 1) := by
  have hd : d ∈ all_dates db sd ed := by
    rw [all_dates, List.mem_dedup, List.mem_append, List.mem_append]
    rcases hocc with ⟨r, hm, hco, hdate⟩ | ⟨r, hm, hdate⟩ | ⟨r, hm, hdate⟩
    · refine Or.inl (Or.inl ?_)
      rw [List.mem_filter]
      exact ⟨hdate ▸ List.mem_map_of_mem _ hm, hr⟩
    · refine Or.inl (Or.inr ?_)
      rw [List.mem_filter]
      exact ⟨hdate ▸ List.mem_map_of_mem _ hm, hr⟩
    · refine Or.inr ?_
      rw [List.mem_filter]
      exact ⟨hdate ▸ List.mem_map_of_mem _ hm, hr⟩
  have hnd : (all_dates db sd ed).Nodup := List.nodup_dedup _
  have hz : ∀ b ∈ all_dates db sd ed, b ≠ d →
      (fun e => (rowBlock e (cpMatches db btc e) (oilMatches db e)
        (stockMatches db "^GSPC" e) (stockMatches db "^NSEI" e)).countP
          (fun r => r.date == d)) b = 0 := by
    intro b _ hb
    have hb2 := rowBlock_countP b d (cpMatches db btc b) (oilMatches db b)
      (stockMatches db "^GSPC" b) (stockMatches db "^NSEI" b)
    rw [if_neg hb] at hb2
    exact hb2
  have key : (overviewSQL db sd ed btc).countP (fun r => r.date == d) =
      (rowBlock d (cpMatches db btc d) (oilMatches db d)
        (stockMatches db "^GSPC" d) (stockMatches db "^NSEI" d)).length := by
    rw [overviewSQL,
      List.Perm.countP_eq _ (List.perm_insertionSort dateDesc _),
      countP_flatMap,
      sum_map_single (all_dates db sd ed) _ d hnd hd hz]
    show (rowBlock d (cpMatches db btc d) (oilMatches db d)
      (stockMatches db "^GSPC" d) (stockMatches db "^NSEI" d)).countP
        (fun r => r.date == d) = _
    rw [rowBlock_countP, if_pos rfl]
  constructor
  · rw [key]
    obtain ⟨r0, hr0, -⟩ := rowBlock_exists_mem d (cpMatches db btc d)
      (oilMatches db d) (stockMatches db "^GSPC" d) (stockMatches db "^NSEI" d)
    exact List.length_pos.mpr (List.ne_nil_of_mem hr0)
  · rintro ⟨h1, h2, h3, h4⟩
    have hcp : (cpMatches db btc d).length ≤ 1 := by
      rw [cpMatches, List.length_map, filter_and_eq]
      exact length_filter_dates_le_one
        (db.crypto.filter (fun r => r.coin_id == btc)) (fun r => r.date) d h1
    have hoil : (oilMatches db d).length ≤ 1 := by
      rw [oilMatches, List.length_map]
      exact length_filter_dates_le_one db.oil (fun r => r.date) d h2
    have hsp : (stockMatches db "^GSPC" d).length ≤ 1 := by
      rw [stockMatches, List.length_map, filter_and_eq]
      exact length_filter_dates_le_one
        (db.stock.filter (fun r => r.ticker == "^GSPC")) (fun r => r.date) d h3
    have hni : (stockMatches db "^NSEI" d).length ≤ 1 := by
      rw [stockMatches, List.length_map, filter_and_eq]
      exact length_filter_dates_le_one
        (db.stock.filter (fun r => r.ticker == "^NSEI")) (fun r => r.date) d h4
    rw [key]
    exact rowBlock_length_one (optJoin_length_one hcp) (optJoin_length_one hoil)
      (optJoin_length_one hsp) (optJoin_length_one hni)

/-- Witness for C1 at a concrete duplicate-free database. -/
theorem C1_calendar_union_witness :
    inRange 0 2 1 = true ∧
    occursInSource ⟨[⟨"bitcoin", 1, some 5⟩], [], [], []⟩ "bitcoin" 1 ∧
    seriesDupFree ⟨[⟨"bitcoin", 1, some 5⟩], [], [], []⟩ "bitcoin" ∧
    (overviewSQL ⟨[⟨"bitcoin", 1, some 5⟩], [], [], []⟩ 0 2 "bitcoin").countP
      (fun r => r.date == 1) = 1 :=
  ⟨by decide, by decide, by decide,
   (C1_calendar_union ⟨[⟨"bitcoin", 1, some 5⟩], [], [], []⟩ 0 2 1 "bitcoin"
     (by decide) (by decide)).2 (by decide)⟩

/-- Claim C9: with non-null dates (the data-model invariant), the latest-price
query yields exactly one row per distinct coin, so the fallback branch fires
iff `crypto_prices` has fewer than 3 distinct coins, and in that case the
fallback returns exactly as many rows as the primary query did. -/
theorem C9_one_row_per_coin (crypto : List CryptoRow) :
    (latestTable crypto).map Prod.fst = coinIds crypto ∧
    ((latestTop3 crypto).length < 3 ↔ (coinIds crypto).length < 3) ∧
    ((coinIds crypto).length < 3 →
      (avgTop3 crypto).length = (latestTop3 crypto).length) := by
  refine ⟨latestTable_fst crypto, ?_, ?_⟩
  · rw [latestTop3_length]; omega
  · intro h
    rw [latestTop3_length, avgTop3_length]

set_option maxRecDepth 100000 in
/-- Claim C8: in the query catalog every label is unique across the whole
catalog, every SQL statement takes zero bound parameters (no `?`, `:x`, `@x`
or `$x` placeholder outside string literals), and consequently the merged
label-to-SQL dict `PREDEFINED` loses no entry: looking up any catalog label
returns exactly the SQL text of that label. -/
theorem C8_catalog_invariants :
    allLabels.Nodup ∧
    PREDEFINED.all (fun p => !hasBoundParam p.2) = true ∧
    PREDEFINED.all (fun p => dictLookup PREDEFINED p.1 == some p.2) = true := by
  refine ⟨by decide, by decide, by decide⟩

/-- Witness for C9 at a concrete two-coin database. -/
theorem C9_one_row_per_coin_witness :
    (coinIds [⟨"a", 1, some 10⟩, ⟨"b", 1, some 20⟩]).length < 3 ∧
    (avgTop3 [⟨"a", 1, some 10⟩, ⟨"b", 1, some 20⟩]).length =
      (latestTop3 [⟨"a", 1, some 10⟩, ⟨"b", 1, some 20⟩]).length :=
  ⟨by decide,
   (C9_one_row_per_coin [⟨"a", 1, some 10⟩, ⟨"b", 1, some 20⟩]).2.2 (by decide)⟩

end CrossMarket
